import Mathlib

/-!
Shallow embedding of the AI-WhatsApp-Agents repository (a WhatsApp assistant
for a dental clinic) and proofs about its routing, orchestration, memory
summarization, configuration loading and client error handling.

Python functions are translated into executable Lean definitions.  External
effects (language-model calls, HTTP requests, secret fetches, queue sends,
JSON parsing by `json.loads`) are passed in as explicit oracles, so every
definition is a pure function of its inputs and each claim can be settled by
evaluation and proof.
-/

/-! ## Python string primitives

`pyStrip` models Python `str.strip()` (remove leading/trailing whitespace)
and `pyLower` models `str.lower()` for the ASCII labels used by the router. -/

def isPySpace (c : Char) : Bool :=
  c = ' ' || c = '\t' || c = '\n' || c = '\r' || c = '\x0b' || c = '\x0c'

def pyStrip (s : String) : String :=
  ⟨((s.data.dropWhile isPySpace).reverse.dropWhile isPySpace).reverse⟩

def pyLower (s : String) : String :=
  ⟨s.data.map Char.toLower⟩

/-! ## Turn State (src/app/state.py)

`State` is a `TypedDict` with `total=False`: every field may be absent, which
we model with `Option`.  `Msg` is one history entry. -/

structure Msg where
  role : String
  message : String
deriving DecidableEq, Repr

structure State where
  history : Option (List Msg) := none
  message : Option String := none
  memory : Option String := none
  category : Option String := none
  final_answer : Option String := none
deriving DecidableEq, Repr

/-! ## Router (src/app/util.py, route_from_category)

Python:
```
cat = (state.get("category") or "").strip().lower()
if cat in ("servicefaqs", "logistics"): return "info"
if cat == "schedule": return "schedule"
if cat == "smalltalk": return "smalltalk"
if cat == "lowconfidence": return "low"
return "low"
```
`state.get("category")` is `None` when the field is absent; `or ""` collapses
`None` and the empty string to `""`.  The `print('routing')` debug line has no
effect on the returned value and is not modelled. -/

def route_from_category (state : State) : String :=
  let cat := pyLower (pyStrip (state.category.getD ""))
  if cat = "servicefaqs" || cat = "logistics" then "info"
  else if cat = "schedule" then "schedule"
  else if cat = "smalltalk" then "smalltalk"
  else if cat = "lowconfidence" then "low"
  else "low"

/-- Node `routing_node` (src/app/util.py) returns an empty state update. -/
def routing_node (_state : State) : State := {}

example : route_from_category { category := some "ServiceFAQs" } = "info" := by decide
example : route_from_category { category := some " ServiceFAQs " } = "info" := by decide
example : route_from_category {} = "low" := by decide
example : route_from_category { category := some "garbage!" } = "low" := by decide

/-! ## Prompt templates (src/app/prompts.py)

Each `ChatPromptTemplate.from_template(...)` + `chain.invoke(vars)` pair is
modelled as a Lean function from the template variables to the rendered
prompt string.  The language model (`prompt | llm` followed by `.content`)
is an oracle `LLM : String → String` mapping the rendered prompt to the
model's reply text. -/

abbrev LLM := String → String

def categorizeTemplate (message memory : String) : String :=
  "\nYou are a classifier for a dental clinic chat.\n\nDecide the user’s INTENT as one of exactly these labels:\n- ServiceFAQs  (questions about treatments/services, duration, pain/risks, prep/aftercare, general price ranges)\n- Logistics    (hours, address, directions, parking, map link, payments/insurance, how to contact)\n- SmallTalk    (greetings, farewells, thanks/apologies, emojis, small pleasantries; no actionable request)\n- LowConfidence (ambiguous/mixed/out-of-scope; or you are not confident)\n- Schedule     (book appointment in the clinic)\n\nRules:\n- If message is only social niceties -> SmallTalk.\n- If it’s about service information -> ServiceFAQs.\n- If it’s about how/when/where to reach/visit/pay -> Logistics.\n- If unsure or mixed -> LowConfidence.\n\nReturn exactly one of: ServiceFAQs | Logistics | SmallTalk | LowConfidence | Schedule\nNo extra words.\n\nMessage: " ++ message ++ "\nMemory: " ++ memory ++ "\n        "

/-- Node `categorize`: runs the classifier prompt and stores the stripped
model reply in `category`. -/
def categorize (oracle : LLM) (state : State) : State :=
  let response := oracle (categorizeTemplate (state.message.getD "") (state.memory.getD ""))
  { category := some (pyStrip response) }

/-! ### Memory node

Python:
```
messages = state.get("history", []) or []
recent = messages[-10:]
history_blob = "\n".join(json.dumps(item, ensure_ascii=False) for item in recent)
```
-/

/-- Escaping performed by `json.dumps` on string content (backslash and
double quote; control characters do not occur in the inputs we quantify
over, and escaping them would not change any theorem below). -/
def jsonEscapeChar (c : Char) : String :=
  if c = '\\' then "\\\\"
  else if c = '"' then "\\\""
  else String.singleton c

def jsonEscape (s : String) : String :=
  String.join (s.data.map jsonEscapeChar)

/-- Serialization `json.dumps(item, ensure_ascii=False)` for one history entry
`{"role": ..., "message": ...}`. -/
def msgJsonDumps (m : Msg) : String :=
  "\x7b\"role\": \"" ++ jsonEscape m.role ++ "\", \"message\": \"" ++ jsonEscape m.message ++ "\"\x7d"

/-- Slice `messages[-10:]`: the last `min (length, 10)` entries, in order. -/
def memoryRecent (messages : List Msg) : List Msg :=
  messages.drop (messages.length - 10)

/-- The `history_blob` interpolated into the memory prompt. -/
def memoryHistoryBlob (messages : List Msg) : String :=
  String.intercalate "\n" ((memoryRecent messages).map msgJsonDumps)

def memoryTemplate (messages : String) : String :=
  "\nYou are a memory module.\nCreate a concise summary (2–3 sentences) of the following recent conversation so the assistant can keep context.\n\nMessages:\n" ++ messages ++ "\n        "

/-- Node `memory`: summarizes the last 10 history entries.
`state.get("history", []) or []` collapses an absent or empty history
to `[]`. -/
def memory (oracle : LLM) (state : State) : State :=
  let messages := state.history.getD []
  let memory_text := pyStrip (oracle (memoryTemplate (memoryHistoryBlob messages)))
  { memory := some memory_text }

def scheduleTemplate (message memory : String) : String :=
  "\nYou are the scheduling assistant for a dental clinic.\n\nTask:\n- Reply in 1–2 sentences to move scheduling forward (ask for preferred day/time and name/phone if needed).\n- **Always take the conversation memory into account**\n- No markdown, no bullets.\n\nUser message: " ++ message ++ "\nMemory: " ++ memory ++ "\n        "

/-- Node `formulate_final_answer_schedule`. -/
def formulate_final_answer_schedule (oracle : LLM) (state : State) : State :=
  let text := oracle (scheduleTemplate (state.message.getD "") (state.memory.getD ""))
  { final_answer := some text }

/-! ### Info formulator and clinic facts

`CLINIC_CONTEXT` is the JSON record loaded by `load_clinic_context`; the
info/smalltalk formulators read string facts out of it with
`clinic.get(key, "")`.  We model the record as an association list from
fact keys to string values. -/

/-- Lookup `clinic.get(key, "")`: first binding of `key`, defaulting to `""`. -/
def clinicGet (clinic : List (String × String)) (key : String) : String :=
  match clinic.find? (fun kv => kv.1 = key) with
  | some kv => kv.2
  | none => ""

/-- The variable dictionary passed to `chain.invoke` by
`formulate_final_answer_info`. -/
structure InfoPromptVars where
  message : String
  memory : String
  clinic_name : String
  clinic_address : String
  clinic_hours : String
  clinic_phone : String
  clinic_website : String
deriving DecidableEq, Repr

def infoPromptVars (clinic : List (String × String)) (state : State) : InfoPromptVars where
  message := state.message.getD ""
  memory := state.memory.getD ""
  clinic_name := clinicGet clinic "name"
  clinic_address := clinicGet clinic "address"
  clinic_hours := clinicGet clinic "hours"
  clinic_phone := clinicGet clinic "phone"
  clinic_website := clinicGet clinic "website"

def infoTemplate (v : InfoPromptVars) : String :=
  "\nYou are an assistant for " ++ v.clinic_name ++ ".\n\nContext:\n- Address: " ++ v.clinic_address ++ "\n- Hours: " ++ v.clinic_hours ++ "\n- Phone: " ++ v.clinic_phone ++ "\n- Website: " ++ v.clinic_website ++ "\n\nTask:\n- Provide a clear, concise info answer in 1–2 sentences.\n- No markdown, no bullets.\n\nUser message: " ++ v.message ++ "\nMemory: " ++ v.memory ++ "\n        "

/-- Node `formulate_final_answer_info`: injects the clinic facts into the
prompt and stores the raw model reply in `final_answer`. -/
def formulate_final_answer_info (oracle : LLM) (clinic : List (String × String)) (state : State) : State :=
  let text := oracle (infoTemplate (infoPromptVars clinic state))
  { final_answer := some text }

def smalltalkTemplate (message memory clinic_name : String) : String :=
  "\nYou are a friendly assistant for " ++ clinic_name ++ ".\n\nTask:\n- Respond naturally to small talk (greetings, thanks, emojis, brief acknowledgements) in a warm tone.\n- Always take conversation memory into account: if there is an ongoing topic or unresolved request in memory, add ONE short follow-up to move it forward; otherwise just reply to the small talk.\n- If an organization name is provided, you may include it naturally in greetings; if not provided, do not invent one.\n- Keep it to ONE sentence. No markdown, no bullets.\n\nUser message: " ++ message ++ "\nMemory (summary): " ++ memory ++ "\n        "

/-- Node `formulate_final_answer_smalltalk`. -/
def formulate_final_answer_smalltalk (oracle : LLM) (clinic : List (String × String)) (state : State) : State :=
  let text := oracle (smalltalkTemplate (state.message.getD "") (state.memory.getD "") (clinicGet clinic "name"))
  { final_answer := some text }

def lowConfidenceTemplate (message memory : String) : String :=
  "\nYou are an assistant for a dental clinic. The user’s intent is unclear.\n\nTask:\n- Ask politely for clarification in 1 short sentence.\n- **Always take the conversation memory into account**\n- Keep it friendly and simple.\n- No markdown, no bullets.\n\nUser message: " ++ message ++ "\nMemory: " ++ memory ++ "\n        "

/-- Node `formulate_final_answer_low_confidence`. -/
def formulate_final_answer_low_confidence (oracle : LLM) (state : State) : State :=
  let text := oracle (lowConfidenceTemplate (state.message.getD "") (state.memory.getD ""))
  { final_answer := some text }

/-! ## Orchestrator (src/app/app.py)

The `StateGraph` wiring:
```
workflow.set_entry_point("memory")
workflow.add_edge("memory", "categorize")
workflow.add_edge("categorize", "routing")
workflow.add_conditional_edges("routing", route_from_category,
    {"schedule": ..., "info": ..., "smalltalk": ..., "low": ...})
workflow.add_edge(<each formulator>, END)
```
Under LangGraph semantics a node returns a partial state update which is
merged into the current state (the default reducer overwrites each returned
key), and execution follows the (conditional) edges from the entry point
until END. -/

inductive Node where
  | memory
  | categorize
  | routing
  | formulate_final_answer_schedule
  | formulate_final_answer_info
  | formulate_final_answer_smalltalk
  | formulate_final_answer_low_confidence
  | END
deriving DecidableEq, Repr

/-- LangGraph merge of a node's partial update `u` into state `s`: every
key present in the update overwrites the stored value. -/
def mergeState (s u : State) : State where
  history := u.history <|> s.history
  message := u.message <|> s.message
  memory := u.memory <|> s.memory
  category := u.category <|> s.category
  final_answer := u.final_answer <|> s.final_answer

/-- The node functions registered with `workflow.add_node` (END runs no
code). -/
def nodeFn (oracle : LLM) (clinic : List (String × String)) : Node → State → State
  | .memory, s => memory oracle s
  | .categorize, s => categorize oracle s
  | .routing, s => routing_node s
  | .formulate_final_answer_schedule, s => formulate_final_answer_schedule oracle s
  | .formulate_final_answer_info, s => formulate_final_answer_info oracle clinic s
  | .formulate_final_answer_smalltalk, s => formulate_final_answer_smalltalk oracle clinic s
  | .formulate_final_answer_low_confidence, s => formulate_final_answer_low_confidence oracle s
  | .END, s => s

/-- The unconditional `add_edge` calls. -/
def staticEdges : List (Node × Node) :=
  [(.memory, .categorize),
   (.categorize, .routing),
   (.formulate_final_answer_schedule, .END),
   (.formulate_final_answer_info, .END),
   (.formulate_final_answer_smalltalk, .END),
   (.formulate_final_answer_low_confidence, .END)]

/-- The mapping dict of `add_conditional_edges` on the routing node. -/
def conditionalMap : List (String × Node) :=
  [("schedule", .formulate_final_answer_schedule),
   ("info", .formulate_final_answer_info),
   ("smalltalk", .formulate_final_answer_smalltalk),
   ("low", .formulate_final_answer_low_confidence)]

/-- Successor of node `n` given the current state `s`: the conditional edge
out of `routing` evaluates `route_from_category` on the merged state, every
other node follows its static edge. -/
def nextNode (s : State) (n : Node) : Option Node :=
  if n = .routing then
    (conditionalMap.find? (fun kv => kv.1 = route_from_category s)).map (fun kv => kv.2)
  else
    (staticEdges.find? (fun kv => kv.1 = n)).map (fun kv => kv.2)

/-- Fueled graph executor: runs node `n` on state `s`, merges its update,
and follows the edge relation until END (or no edge / fuel exhaustion,
which the concrete graph never reaches).  Returns the trace of executed
nodes and the final state. -/
def runFrom (oracle : LLM) (clinic : List (String × String)) :
    Nat → Node → State → List Node × State
  | 0, _, s => ([], s)
  | _ + 1, .END, s => ([], s)
  | fuel + 1, n, s =>
    let s' := mergeState s (nodeFn oracle clinic n s)
    match nextNode s' n with
    | none => ([n], s')
    | some n' =>
      let rest := runFrom oracle clinic fuel n' s'
      (n :: rest.1, rest.2)

/-- Entry point `app.invoke(input)`: one full orchestrator pass from the entry point
`memory`. -/
def appInvoke (oracle : LLM) (clinic : List (String × String)) (input : State) :
    List Node × State :=
  runFrom oracle clinic 10 .memory input

/-- Driver `run(app, message, history)` (src/app/util.py): invoke with a fresh
input state holding only the current message and the history. -/
def run (oracle : LLM) (clinic : List (String × String)) (message : String)
    (history : List Msg) : List Node × State :=
  appInvoke oracle clinic { message := some message, history := some history }

example :
    (appInvoke (fun _ => "SmallTalk") [] { message := some "hi", history := some [] }).1 =
      [.memory, .categorize, .routing, .formulate_final_answer_smalltalk] := by decide

example :
    (appInvoke (fun _ => "") [] { message := some "hi" }).2.final_answer = some "" := by decide

/-! ## Python values and errors for the lambda clients (py_src)

`PyVal` models the JSON-like Python values flowing through the clients;
`PyError` distinguishes the exception classes the code raises.  `json.loads`
is an oracle `String → Except String PyVal` (error = `JSONDecodeError`). -/

inductive PyVal where
  | vnull
  | vbool (b : Bool)
  | vint (n : Int)
  | vstr (s : String)
  | vlist (items : List PyVal)
  | vdict (entries : List (String × PyVal))

inductive PyError where
  | valueError (msg : String)
  | runtimeError (msg : String)
  | typeError (msg : String)
  | queueDispatchError (msg : String)
  | whatsAppSendError (msg : String)
  | jsonDecodeError (msg : String)
  | attributeError (msg : String)
  | fileNotFoundError (msg : String)
deriving DecidableEq, Repr

abbrev JsonLoads := String → Except String PyVal

/-- Python truthiness of a value (`if x:`). -/
def pyTruthy : PyVal → Bool
  | .vnull => false
  | .vbool b => b
  | .vint n => n ≠ 0
  | .vstr s => s ≠ ""
  | .vlist items => !items.isEmpty
  | .vdict entries => !entries.isEmpty

/-- Lookup `d.get(key)` on a dict value: `vnull` models Python `None` for a missing
key. -/
def pyDictGet (entries : List (String × PyVal)) (key : String) : PyVal :=
  match entries.find? (fun kv => kv.1 = key) with
  | some kv => kv.2
  | none => .vnull

def PyVal.isDict : PyVal → Bool
  | .vdict _ => true
  | _ => false

/-! ## Clinic lambda facade (py_src/.../clients/api_clients.py)

`_invoke_clinic_lambda` builds an API-gateway-shaped event, invokes the
clinic lambda, and post-processes the returned envelope:
```
lambda_result = json.loads(raw_payload or b"{}")
status_code = lambda_result.get("statusCode", 500)
response_body = lambda_result.get("body")
if isinstance(response_body, str): parsed_body = json.loads(response_body)  # RuntimeError on failure
elif response_body is None: parsed_body = {}
else: parsed_body = response_body
if status_code >= 400: raise RuntimeError(...)
if not isinstance(parsed_body, dict): raise RuntimeError(...)
return parsed_body
```
We embed the envelope post-processing as a function of the decoded lambda
result: `statusCode` (`none` when the key is absent, so `.get`'s default 500
applies) and `body` (`vnull` when absent or null). -/

structure LambdaResult where
  statusCode : Option Int := none
  body : PyVal := .vnull


/-- Python `repr`/f-string rendering of a value, used in error messages so
that raised errors carry the body context. -/
def pyReprFuel : Nat → PyVal → String
  | _, .vnull => "None"
  | _, .vbool b => if b then "True" else "False"
  | _, .vint n => toString n
  | _, .vstr s => "\x27" ++ s ++ "\x27"
  | 0, _ => "..."
  | fuel + 1, .vlist items =>
    "[" ++ String.intercalate ", " (items.map (pyReprFuel fuel)) ++ "]"
  | fuel + 1, .vdict entries =>
    "\x7b" ++ String.intercalate ", "
      (entries.map (fun kv => "\x27" ++ kv.1 ++ "\x27: " ++ pyReprFuel fuel kv.2)) ++ "\x7d"

def pyRepr (v : PyVal) : String := pyReprFuel 1000000 v

def invoke_clinic_lambda (jsonLoads : JsonLoads) (r : LambdaResult) :
    Except PyError PyVal :=
  let status_code := r.statusCode.getD 500
  let parsedE : Except PyError PyVal :=
    match r.body with
    | .vstr s =>
      match jsonLoads s with
      | .ok v => .ok v
      | .error _ => .error (.runtimeError ("Clinic lambda returned non-JSON string body: " ++ s))
    | .vnull => .ok (.vdict [])
    | b => .ok b
  match parsedE with
  | .error e => .error e
  | .ok parsed_body =>
    if status_code ≥ 400 then
      .error (.runtimeError ("Clinic lambda returned error " ++ toString status_code ++ ": " ++ pyRepr parsed_body))
    else if ¬ parsed_body.isDict then
      .error (.runtimeError "Clinic lambda returned unexpected body type")
    else
      .ok parsed_body

/-! ## Clinic context loading (src/app/util.py, load_clinic_context)

Python:
```
env_context = os.getenv("CLINIC_CONTEXT_JSON")
if env_context:
    return json.loads(env_context)
json_path = Path(__file__).parent / "clinic_context.json"
with open(json_path, ...) as f:
    return json.load(f)
```
`env_context` is the environment value (`none` when unset); `file_content`
is the text of `clinic_context.json` (`none` when the file does not exist,
in which case `open` raises `FileNotFoundError`).  A `json.loads` failure
raises `JSONDecodeError` in either branch. -/

def load_clinic_context (jsonLoads : JsonLoads) (env_context : Option String)
    (file_content : Option String) : Except PyError PyVal :=
  let fromFile : Except PyError PyVal :=
    match file_content with
    | none => .error (.fileNotFoundError "clinic_context.json")
    | some content =>
      match jsonLoads content with
      | .ok v => .ok v
      | .error e => .error (.jsonDecodeError e)
  if env_context.getD "" ≠ "" then
    match jsonLoads (env_context.getD "") with
    | .ok v => .ok v
    | .error e => .error (.jsonDecodeError e)
  else
    fromFile

/-! ## Queue dispatcher (py_src/.../clients/queue_client.py)

`QueueDispatcher._send` serializes the payload and calls
`sqs.send_message`; any exception from the send is re-raised as
`QueueDispatchError`.  The SQS client is an oracle taking the queue URL and
the serialized message body. -/

abbrev SqsSendMessage := String → String → Except String Unit

def QueueDispatcher_send (sqs_send_message : SqsSendMessage) (queue_url : String)
    (payload_json : String) : Except PyError Unit :=
  match sqs_send_message queue_url payload_json with
  | .ok _ => .ok ()
  | .error err =>
    .error (.queueDispatchError ("Failed to publish message to " ++ queue_url ++ ": " ++ err))

/-! ## WhatsApp sender (py_src/.../clients/meta_client.py)

`send_whatsapp_message` validates its arguments, reads the secret prefix from
the environment, fetches the per-phone-number secret, and posts to the Meta
Graph API.  External effects are oracles:
  * `get_secret_json` — the secret-manager fetch,
  * `http_post` — `requests.post(url, headers, json=payload)`, returning
    either a raised `requests.RequestException` or a response with a status
    code, body text and the result of `resp.json()`.
`resp.ok` is `status_code < 400` (the `requests` library definition).
Alongside the result we return how many secret fetches and HTTP requests
were performed, so that "no external side effect occurs" is provable. -/

inductive HttpOutcome where
  | requestException (msg : String)
  | response (status_code : Int) (json : Except String PyVal) (text : String)

abbrev GetSecretJson := String → Except String PyVal

abbrev HttpPost := String → PyVal → PyVal → HttpOutcome

structure SendEffects where
  secret_fetches : Nat
  http_requests : Nat
deriving DecidableEq, Repr

def whatsAppPayload (assistant_message user_id : String) : PyVal :=
  .vdict [("messaging_product", .vstr "whatsapp"),
          ("to", .vstr user_id),
          ("type", .vstr "text"),
          ("text", .vdict [("body", .vstr assistant_message)])]

def send_whatsapp_message (get_secret_json : GetSecretJson) (http_post : HttpPost)
    (whatsapp_secret_arn : Option String)
    (assistant_message phone_number_id user_id : String) :
    Except PyError PyVal × SendEffects :=
  if pyStrip assistant_message = "" then
    (.error (.valueError "assistant_message is empty"), ⟨0, 0⟩)
  else if pyStrip phone_number_id = "" then
    (.error (.valueError "phone_number_id is empty"), ⟨0, 0⟩)
  else if pyStrip user_id = "" then
    (.error (.valueError "user_id is empty"), ⟨0, 0⟩)
  else if whatsapp_secret_arn.getD "" = "" then
    (.error (.whatsAppSendError "Missing env var WHATSAPP_SECRET_ARN"), ⟨0, 0⟩)
  else
    let secret_id := whatsapp_secret_arn.getD "" ++ phone_number_id
    match get_secret_json secret_id with
    | .error e => (.error (.runtimeError e), ⟨1, 0⟩)
    | .ok secret =>
      let token :=
        match secret with
        | .vdict entries => pyDictGet entries "WHATSAPP_ACCESS_TOKEN"
        | _ => .vnull
      if ¬ pyTruthy token then
        (.error (.whatsAppSendError ("Secret " ++ secret_id ++ " missing WHATSAPP_ACCESS_TOKEN")), ⟨1, 0⟩)
      else
        let url := "https://graph.facebook.com/v20.0/" ++ phone_number_id ++ "/messages"
        match http_post url token (whatsAppPayload assistant_message user_id) with
        | .requestException e =>
          (.error (.whatsAppSendError ("HTTP request failed: " ++ e)), ⟨1, 1⟩)
        | .response status_code json text =>
          if ¬ (status_code < 400) then
            let err_rendered :=
              match json with
              | .ok j => pyRepr j
              | .error _ => pyRepr (.vdict [("raw", .vstr text)])
            (.error (.whatsAppSendError ("WhatsApp API error " ++ toString status_code ++ ": " ++ err_rendered)), ⟨1, 1⟩)
          else
            match json with
            | .ok j => (.ok j, ⟨1, 1⟩)
            | .error e => (.error (.jsonDecodeError e), ⟨1, 1⟩)

/-! ## OpenAI API key cache (py_src/.../foundational_llm/llms.py)

```
_cached_key: str | None = None
def get_openai_api_key() -> str:
    global _cached_key
    if _cached_key:
        return _cached_key
    resp = _sm.get_secret_value(SecretId=SECRET_ID)
    secret_str = resp["SecretString"]
    try:
        data = json.loads(secret_str)
        key = data.get("OPENAI_API_KEY") or data.get("api_key")
        if not key:
            raise ValueError(...)
    except json.JSONDecodeError:
        key = secret_str.strip()
    _cached_key = key
    return key
```
One call is a state transition on the module-level cache.  The secret fetch
is an oracle; `fetched` records whether this call performed a fetch.  Note
`if _cached_key:` is a truthiness test: a cached empty string does not count
as a cache hit.  The cached value is kept as a `PyVal` because a JSON secret
may bind the key to any truthy value. -/

structure KeyCallResult where
  key : PyVal
  cache : Option PyVal
  fetched : Bool

def get_openai_api_key (jsonLoads : JsonLoads) (fetch_secret : Except String String)
    (cached_key : Option PyVal) : Except PyError KeyCallResult :=
  let hit :=
    match cached_key with
    | some v => pyTruthy v
    | none => false
  if hit then
    match cached_key with
    | some v => .ok ⟨v, some v, false⟩
    | none => .error (.runtimeError "unreachable")
  else
    match fetch_secret with
    | .error e => .error (.runtimeError e)
    | .ok secret_str =>
      match jsonLoads secret_str with
      | .ok data =>
        match data with
        | .vdict entries =>
          let k1 := pyDictGet entries "OPENAI_API_KEY"
          let key := if pyTruthy k1 then k1 else pyDictGet entries "api_key"
          if ¬ pyTruthy key then
            .error (.valueError "Secret JSON didn’t include OPENAI_API_KEY/api_key")
          else
            .ok ⟨key, some key, true⟩
        | _ => .error (.attributeError "object has no attribute get")
      | .error _ =>
        let key : PyVal := .vstr (pyStrip secret_str)
        .ok ⟨key, some key, true⟩

/-! ## Helper lemmas -/

theorem route_from_category_mem (s : State) :
    route_from_category s = "info" ∨ route_from_category s = "schedule" ∨
    route_from_category s = "smalltalk" ∨ route_from_category s = "low" := by
  simp only [route_from_category]
  split_ifs <;> simp

theorem runFrom10_memory (oracle : LLM) (clinic : List (String × String)) (input : State) :
    runFrom oracle clinic 10 .memory input =
      (Node.memory :: (runFrom oracle clinic 9 .categorize (mergeState input (memory oracle input))).1,
       (runFrom oracle clinic 9 .categorize (mergeState input (memory oracle input))).2) := rfl

theorem runFrom9_categorize (oracle : LLM) (clinic : List (String × String)) (s : State) :
    runFrom oracle clinic 9 .categorize s =
      (Node.categorize :: (runFrom oracle clinic 8 .routing (mergeState s (categorize oracle s))).1,
       (runFrom oracle clinic 8 .routing (mergeState s (categorize oracle s))).2) := rfl

theorem runFrom8_routing (oracle : LLM) (clinic : List (String × String)) (s : State) (target : Node)
    (h : (conditionalMap.find? (fun kv => kv.1 = route_from_category s)).map (fun kv => kv.2) = some target) :
    runFrom oracle clinic 8 .routing s =
      (Node.routing :: (runFrom oracle clinic 7 target s).1,
       (runFrom oracle clinic 7 target s).2) := by
  have e : runFrom oracle clinic 8 .routing s =
      (match (conditionalMap.find? (fun kv => kv.1 = route_from_category s)).map (fun kv => kv.2) with
       | none => ([Node.routing], s)
       | some n' => (Node.routing :: (runFrom oracle clinic 7 n' s).1, (runFrom oracle clinic 7 n' s).2)) := rfl
  rw [e, h]

theorem runFrom7_schedule (oracle : LLM) (clinic : List (String × String)) (s : State) :
    runFrom oracle clinic 7 .formulate_final_answer_schedule s =
      ([Node.formulate_final_answer_schedule], mergeState s (formulate_final_answer_schedule oracle s)) := rfl

theorem runFrom7_info (oracle : LLM) (clinic : List (String × String)) (s : State) :
    runFrom oracle clinic 7 .formulate_final_answer_info s =
      ([Node.formulate_final_answer_info], mergeState s (formulate_final_answer_info oracle clinic s)) := rfl

theorem runFrom7_smalltalk (oracle : LLM) (clinic : List (String × String)) (s : State) :
    runFrom oracle clinic 7 .formulate_final_answer_smalltalk s =
      ([Node.formulate_final_answer_smalltalk], mergeState s (formulate_final_answer_smalltalk oracle clinic s)) := rfl

theorem runFrom7_low (oracle : LLM) (clinic : List (String × String)) (s : State) :
    runFrom oracle clinic 7 .formulate_final_answer_low_confidence s =
      ([Node.formulate_final_answer_low_confidence], mergeState s (formulate_final_answer_low_confidence oracle s)) := rfl

/-- One full orchestrator pass runs memory, categorize, routing and then
exactly one of the four formulators (chosen by `route_from_category`), whose
update is merged into the state reached after classification. -/
theorem appInvoke_cases (oracle : LLM) (clinic : List (String × String)) (input : State) :
    ∃ f : Node,
      (f = .formulate_final_answer_schedule ∨ f = .formulate_final_answer_info ∨
       f = .formulate_final_answer_smalltalk ∨ f = .formulate_final_answer_low_confidence) ∧
      appInvoke oracle clinic input =
        ([.memory, .categorize, .routing, f],
          mergeState
            (mergeState (mergeState input (memory oracle input))
              (categorize oracle (mergeState input (memory oracle input))))
            (nodeFn oracle clinic f
              (mergeState (mergeState input (memory oracle input))
                (categorize oracle (mergeState input (memory oracle input)))))) := by
  unfold appInvoke
  rw [runFrom10_memory, runFrom9_categorize]
  rcases route_from_category_mem (mergeState (mergeState input (memory oracle input))
      (categorize oracle (mergeState input (memory oracle input)))) with h | h | h | h
  · refine ⟨.formulate_final_answer_info, by simp, ?_⟩
    rw [runFrom8_routing _ _ _ _ (by rw [h]; rfl), runFrom7_info]
    rfl
  · refine ⟨.formulate_final_answer_schedule, by simp, ?_⟩
    rw [runFrom8_routing _ _ _ _ (by rw [h]; rfl), runFrom7_schedule]
    rfl
  · refine ⟨.formulate_final_answer_smalltalk, by simp, ?_⟩
    rw [runFrom8_routing _ _ _ _ (by rw [h]; rfl), runFrom7_smalltalk]
    rfl
  · refine ⟨.formulate_final_answer_low_confidence, by simp, ?_⟩
    rw [runFrom8_routing _ _ _ _ (by rw [h]; rfl), runFrom7_low]
    rfl

/-- If a key is bound by none of the clinic facts, `clinic.get(key, "")`
yields the empty string. -/
theorem clinicGet_of_missing (clinic : List (String × String)) (key : String)
    (h : ∀ kv ∈ clinic, kv.1 ≠ key) : clinicGet clinic key = "" := by
  unfold clinicGet
  rw [List.find?_eq_none.mpr]
  intro kv hkv
  simpa using h kv hkv

/-! ## Claim theorems -/

/-- C1: the Router `route_from_category` is a total function that trims and
case-folds the category label and maps ServiceFAQs/Logistics to "info",
Schedule to "schedule", SmallTalk to "smalltalk", LowConfidence to "low",
and everything else — including the empty string and an absent category —
to "low"; each input in the family ServiceFAQs / servicefaqs /
" ServiceFAQs " yields "info". -/
theorem router_label_mapping :
    route_from_category { category := some "ServiceFAQs" } = "info" ∧
    route_from_category { category := some "servicefaqs" } = "info" ∧
    route_from_category { category := some " ServiceFAQs " } = "info" ∧
    route_from_category {} = "low" ∧
    route_from_category { category := some "" } = "low" ∧
    (∀ c : String,
      ((pyLower (pyStrip c) = "servicefaqs" ∨ pyLower (pyStrip c) = "logistics") →
        route_from_category { category := some c } = "info") ∧
      (pyLower (pyStrip c) = "schedule" →
        route_from_category { category := some c } = "schedule") ∧
      (pyLower (pyStrip c) = "smalltalk" →
        route_from_category { category := some c } = "smalltalk") ∧
      (pyLower (pyStrip c) = "lowconfidence" →
        route_from_category { category := some c } = "low") ∧
      (pyLower (pyStrip c) ∉
          (["servicefaqs", "logistics", "schedule", "smalltalk", "lowconfidence"] : List String) →
        route_from_category { category := some c } = "low")) ∧
    (∀ s : State, route_from_category s = "info" ∨ route_from_category s = "schedule" ∨
      route_from_category s = "smalltalk" ∨ route_from_category s = "low") := by
  refine ⟨by decide, by decide, by decide, by decide, by decide, ?_, route_from_category_mem⟩
  intro c
  refine ⟨?_, ?_, ?_, ?_, ?_⟩
  · rintro (h | h) <;> simp [route_from_category, h]
  · intro h; simp [route_from_category, h]
  · intro h; simp [route_from_category, h]
  · intro h; simp [route_from_category, h]
  · intro h
    simp only [List.mem_cons, List.not_mem_nil, or_false, not_or] at h
    obtain ⟨h1, h2, h3, h4, h5⟩ := h
    simp [route_from_category, h1, h2, h3, h4, h5]

/-- Witness for C1: instantiates the universally quantified part of
`router_label_mapping` at the concrete unrecognized label " Gibberish!! ". -/
theorem router_label_mapping_witness :
    pyLower (pyStrip " Gibberish!! ") ∉
      (["servicefaqs", "logistics", "schedule", "smalltalk", "lowconfidence"] : List String) ∧
    route_from_category { category := some " Gibberish!! " } = "low" :=
  ⟨by decide, ((router_label_mapping.2.2.2.2.2.1 " Gibberish!! ").2.2.2.2) (by decide)⟩

/-- C2 counterexample: with a language model that replies with the empty
string, a full orchestrator pass sets `final_answer` to `""` — the claim
that the final answer is always a non-empty string is false, since the code
stores the model reply without checking it. -/
theorem final_answer_empty_counterexample :
    (appInvoke (fun _ => "") [] { message := some "hi", history := some [] }).2.final_answer =
      some "" ∧ ("" : String).length = 0 := by
  constructor
  · decide
  · rfl

/-- C2 (amended): after a full orchestrator pass `final_answer` is always
set — to the chosen formulator's model reply — and it is non-empty
provided every model reply is non-empty. -/
theorem final_answer_set_nonempty (oracle : LLM) (clinic : List (String × String))
    (input : State) (hne : ∀ p, oracle p ≠ "") :
    ∃ t : String, (appInvoke oracle clinic input).2.final_answer = some t ∧ t ≠ "" := by
  obtain ⟨f, hf, heq⟩ := appInvoke_cases oracle clinic input
  rw [heq]
  rcases hf with h | h | h | h <;> subst h
  · exact ⟨_, rfl, hne _⟩
  · exact ⟨_, rfl, hne _⟩
  · exact ⟨_, rfl, hne _⟩
  · exact ⟨_, rfl, hne _⟩

/-- Witness for C2 (amended): with the constant reply "OK", the pass yields
a non-empty final answer. -/
theorem final_answer_set_nonempty_witness :
    (∀ p : String, (fun _ : String => "OK") p ≠ "") ∧
    ∃ t : String,
      (appInvoke (fun _ => "OK") [] { message := some "hi" }).2.final_answer = some t ∧ t ≠ "" :=
  ⟨fun _ => by simp,
   final_answer_set_nonempty (fun _ => "OK") [] { message := some "hi" } (fun _ => by simp)⟩

/-- C3: the memory summarizer includes exactly the last `min (n, 10)`
history entries, in order, in the prompt sent to the model: `memoryRecent`
is a suffix of the history of length `min (n, 10)`; at 15 entries exactly
the last 10 remain; and the `memory` node's prompt interpolates precisely
those entries, serialized in order. -/
theorem memory_prompt_last_ten :
    (∀ h : List Msg, ∃ pre : List Msg, h = pre ++ memoryRecent h ∧
        (memoryRecent h).length = min h.length 10) ∧
    (∀ h : List Msg, h.length = 15 → memoryRecent h = h.drop 5) ∧
    (∀ (oracle : LLM) (s : State), (memory oracle s).memory =
        some (pyStrip (oracle (memoryTemplate
          (String.intercalate "\n" ((memoryRecent (s.history.getD [])).map msgJsonDumps)))))) := by
  refine ⟨?_, ?_, ?_⟩
  · intro h
    refine ⟨h.take (h.length - 10), (h.take_append_drop _).symm, ?_⟩
    simp only [memoryRecent, List.length_drop]
    omega
  · intro h hh
    simp [memoryRecent, hh]
  · intro oracle s
    rfl

/-- Witness for C3: a concrete history of 15 entries keeps exactly its last
10 entries. -/
theorem memory_prompt_last_ten_witness :
    (List.replicate 15 (Msg.mk "human" "hi")).length = 15 ∧
    memoryRecent (List.replicate 15 (Msg.mk "human" "hi")) =
      (List.replicate 15 (Msg.mk "human" "hi")).drop 5 :=
  ⟨by simp, memory_prompt_last_ten.2.1 _ (by simp)⟩

/-- C4: the orchestrator has the fixed topology start → memory → categorize
→ routing → exactly one of the four formulators → end: the execution trace
of one turn is precisely `[memory, categorize, routing, f]` for a single
formulator `f`, with no repetition (no cycle, no backtracking) and nothing
running after the formulator. -/
theorem orchestrator_fixed_topology (oracle : LLM) (clinic : List (String × String))
    (input : State) :
    ∃ f : Node,
      (f = .formulate_final_answer_schedule ∨ f = .formulate_final_answer_info ∨
       f = .formulate_final_answer_smalltalk ∨ f = .formulate_final_answer_low_confidence) ∧
      (appInvoke oracle clinic input).1 = [.memory, .categorize, .routing, f] ∧
      ((appInvoke oracle clinic input).1).Nodup := by
  obtain ⟨f, hf, heq⟩ := appInvoke_cases oracle clinic input
  refine ⟨f, hf, by rw [heq], ?_⟩
  rw [heq]
  rcases hf with h | h | h | h <;> subst h <;> simp

/-- C5 counterexample: the claim says every non-2xx status in the response
envelope is raised as an error, but the code only raises for
`status_code >= 400`: a 302 envelope with a dict body is returned as a
success. -/
theorem clinic_lambda_redirect_counterexample :
    invoke_clinic_lambda (fun _ => .error "Expecting value")
      { statusCode := some 302, body := .vdict [("ok", .vbool true)] } =
      .ok (.vdict [("ok", .vbool true)]) := rfl

/-- C5 (amended): the facade `_invoke_clinic_lambda` raises a `RuntimeError` carrying
status and body context whenever the envelope status is >= 400 or a string
body fails to parse as JSON; otherwise, for a status < 400, the parsed JSON
object body (an empty dict when the body is absent) is returned. -/
theorem clinic_lambda_error_handling (jsonLoads : JsonLoads) (r : LambdaResult) :
    (r.statusCode.getD 500 ≥ 400 →
      ∃ m, invoke_clinic_lambda jsonLoads r = .error (.runtimeError m)) ∧
    (∀ s em, r.body = .vstr s → jsonLoads s = .error em →
      invoke_clinic_lambda jsonLoads r =
        .error (.runtimeError ("Clinic lambda returned non-JSON string body: " ++ s))) ∧
    (∀ s v, r.body = .vstr s → jsonLoads s = .ok v → r.statusCode.getD 500 < 400 →
      v.isDict = true → invoke_clinic_lambda jsonLoads r = .ok v) ∧
    (∀ entries, r.body = .vdict entries → r.statusCode.getD 500 < 400 →
      invoke_clinic_lambda jsonLoads r = .ok (.vdict entries)) ∧
    (r.body = .vnull → r.statusCode.getD 500 < 400 →
      invoke_clinic_lambda jsonLoads r = .ok (.vdict [])) := by
  refine ⟨?_, ?_, ?_, ?_, ?_⟩
  · intro hst
    cases hb : r.body with
    | vstr s =>
      cases hj : jsonLoads s with
      | error em =>
        exact ⟨"Clinic lambda returned non-JSON string body: " ++ s,
          by simp [invoke_clinic_lambda, hb, hj]⟩
      | ok v =>
        exact ⟨"Clinic lambda returned error " ++ toString (r.statusCode.getD 500) ++ ": " ++ pyRepr v,
          by simp [invoke_clinic_lambda, hb, hj, hst]⟩
    | vnull =>
      exact ⟨"Clinic lambda returned error " ++ toString (r.statusCode.getD 500) ++ ": " ++ pyRepr (.vdict []),
        by simp [invoke_clinic_lambda, hb, hst]⟩
    | vbool b =>
      exact ⟨"Clinic lambda returned error " ++ toString (r.statusCode.getD 500) ++ ": " ++ pyRepr (.vbool b),
        by simp [invoke_clinic_lambda, hb, hst]⟩
    | vint n =>
      exact ⟨"Clinic lambda returned error " ++ toString (r.statusCode.getD 500) ++ ": " ++ pyRepr (.vint n),
        by simp [invoke_clinic_lambda, hb, hst]⟩
    | vlist items =>
      exact ⟨"Clinic lambda returned error " ++ toString (r.statusCode.getD 500) ++ ": " ++ pyRepr (.vlist items),
        by simp [invoke_clinic_lambda, hb, hst]⟩
    | vdict entries =>
      exact ⟨"Clinic lambda returned error " ++ toString (r.statusCode.getD 500) ++ ": " ++ pyRepr (.vdict entries),
        by simp [invoke_clinic_lambda, hb, hst]⟩
  · intro s em hb hj
    simp [invoke_clinic_lambda, hb, hj]
  · intro s v hb hj hst hd
    simp [invoke_clinic_lambda, hb, hj, hd, not_le.mpr hst]
  · intro entries hb hst
    simp [invoke_clinic_lambda, hb, PyVal.isDict, not_le.mpr hst]
  · intro hb hst
    simp [invoke_clinic_lambda, hb, PyVal.isDict, not_le.mpr hst]

/-- Witness for C5 (amended): a missing `statusCode` key defaults to 500
and is raised. -/
theorem clinic_lambda_error_handling_witness :
    ({ statusCode := none, body := .vnull : LambdaResult }).statusCode.getD 500 ≥ 400 ∧
    ∃ m, invoke_clinic_lambda (fun _ => .error "Expecting value")
      { statusCode := none, body := .vnull } = .error (.runtimeError m) :=
  ⟨by decide,
   (clinic_lambda_error_handling (fun _ => .error "Expecting value")
     { statusCode := none, body := .vnull }).1 (by decide)⟩

/-- C6: loader `load_clinic_context` prefers a non-empty inline configuration
value over the local file; loading identical JSON content from either
source yields the identical record (both are `jsonLoads` of the same text,
so this is a round-trip); and when neither source is available, or parsing
fails, loading raises instead of returning a partial record. -/
theorem clinic_context_load (jsonLoads : JsonLoads) :
    (∀ s file, s ≠ "" → load_clinic_context jsonLoads (some s) file =
      load_clinic_context jsonLoads none (some s)) ∧
    (∀ s file v, s ≠ "" → jsonLoads s = .ok v →
      load_clinic_context jsonLoads (some s) file = .ok v) ∧
    (∀ s file e, s ≠ "" → jsonLoads s = .error e →
      load_clinic_context jsonLoads (some s) file = .error (.jsonDecodeError e)) ∧
    (∀ content e, jsonLoads content = .error e →
      load_clinic_context jsonLoads none (some content) = .error (.jsonDecodeError e)) ∧
    load_clinic_context jsonLoads none none = .error (.fileNotFoundError "clinic_context.json") ∧
    load_clinic_context jsonLoads (some "") none =
      .error (.fileNotFoundError "clinic_context.json") := by
  refine ⟨?_, ?_, ?_, ?_, by simp [load_clinic_context], by simp [load_clinic_context]⟩
  · intro s file hs
    cases hj : jsonLoads s <;> simp [load_clinic_context, hs, hj]
  · intro s file v hs hj
    simp [load_clinic_context, hs, hj]
  · intro s file e hs hj
    simp [load_clinic_context, hs, hj]
  · intro content e hj
    simp [load_clinic_context, hj]

/-- Witness for C6: loading the same concrete JSON text inline and from a
file yields the same record. -/
theorem clinic_context_load_witness :
    ("text" : String) ≠ "" ∧
    load_clinic_context (fun s => .ok (.vstr s)) (some "text") (some "text") =
      load_clinic_context (fun s => .ok (.vstr s)) none (some "text") :=
  ⟨by decide, (clinic_context_load (fun s => .ok (.vstr s))).1 "text" (some "text") (by decide)⟩

/-- C7: the Info formulator stores the model reply to the prompt rendered
from `infoPromptVars`, which injects the clinic facts name/address/hours/
phone/website; any fact key missing from the Clinic Facts record renders as
the empty string, never placeholder text. -/
theorem info_formulator_clinic_facts (oracle : LLM) (clinic : List (String × String))
    (s : State) :
    (formulate_final_answer_info oracle clinic s).final_answer =
      some (oracle (infoTemplate (infoPromptVars clinic s))) ∧
    ((∀ kv ∈ clinic, kv.1 ≠ "name") → (infoPromptVars clinic s).clinic_name = "") ∧
    ((∀ kv ∈ clinic, kv.1 ≠ "address") → (infoPromptVars clinic s).clinic_address = "") ∧
    ((∀ kv ∈ clinic, kv.1 ≠ "hours") → (infoPromptVars clinic s).clinic_hours = "") ∧
    ((∀ kv ∈ clinic, kv.1 ≠ "phone") → (infoPromptVars clinic s).clinic_phone = "") ∧
    ((∀ kv ∈ clinic, kv.1 ≠ "website") → (infoPromptVars clinic s).clinic_website = "") :=
  ⟨rfl,
   fun h => clinicGet_of_missing clinic "name" h,
   fun h => clinicGet_of_missing clinic "address" h,
   fun h => clinicGet_of_missing clinic "hours" h,
   fun h => clinicGet_of_missing clinic "phone" h,
   fun h => clinicGet_of_missing clinic "website" h⟩

/-- Witness for C7: a record holding only a clinic name renders the hours
variable as the empty string. -/
theorem info_formulator_clinic_facts_witness :
    (∀ kv ∈ ([("name", "Opal Dental")] : List (String × String)), kv.1 ≠ "hours") ∧
    (infoPromptVars [("name", "Opal Dental")] {}).clinic_hours = "" :=
  ⟨by decide,
   (info_formulator_clinic_facts (fun _ => "") [("name", "Opal Dental")] {}).2.2.2.1 (by decide)⟩

/-- C8: delivery/publish failure behaviour evaluated at concrete inputs.
A failing queue send is re-raised as `QueueDispatchError`; a raised HTTP
exception is re-raised as `WhatsAppSendError`; a 500 response is raised as
`WhatsAppSendError`.  However the final conjunct exhibits the divergence
from the claim (and from the function's own docstring, which promises
"WhatsAppSendError on non-2xx responses"): the code tests `resp.ok`, i.e.
`status_code < 400`, so a non-2xx 302 response is returned as success with
no error raised. -/
theorem delivery_error_behavior :
    QueueDispatcher_send (fun _ _ => .error "boom") "https://sqs.example/queue" "\x7b\x7d" =
      .error (.queueDispatchError
        "Failed to publish message to https://sqs.example/queue: boom") ∧
    send_whatsapp_message (fun _ => .ok (.vdict [("WHATSAPP_ACCESS_TOKEN", .vstr "tok")]))
      (fun _ _ _ => .requestException "connection timed out")
      (some "arn:wa/") "hello" "123" "456" =
      (.error (.whatsAppSendError "HTTP request failed: connection timed out"), ⟨1, 1⟩) ∧
    send_whatsapp_message (fun _ => .ok (.vdict [("WHATSAPP_ACCESS_TOKEN", .vstr "tok")]))
      (fun _ _ _ => .response 500 (.ok (.vdict [("error", .vstr "bad")])) "")
      (some "arn:wa/") "hello" "123" "456" =
      (.error (.whatsAppSendError
        ("WhatsApp API error 500: " ++ pyRepr (.vdict [("error", .vstr "bad")]))), ⟨1, 1⟩) ∧
    send_whatsapp_message (fun _ => .ok (.vdict [("WHATSAPP_ACCESS_TOKEN", .vstr "tok")]))
      (fun _ _ _ => .response 302 (.ok (.vdict [("status", .vstr "redirect")])) "")
      (some "arn:wa/") "hello" "123" "456" =
      (.ok (.vdict [("status", .vstr "redirect")]), ⟨1, 1⟩) :=
  ⟨rfl, rfl, rfl, rfl⟩

/-- C9 counterexample: a whitespace-only non-JSON secret makes the first
call succeed with the key `""`, which is cached — but `if _cached_key:` is
a truthiness test, so the second call treats the cache as empty and
performs another secret fetch (`fetched = true`), refuting "every
subsequent call returns the cached key without performing another secret
fetch". -/
theorem api_key_cache_counterexample :
    get_openai_api_key (fun _ => .error "Expecting value") (.ok " ") none =
      .ok ⟨.vstr "", some (.vstr ""), true⟩ ∧
    get_openai_api_key (fun _ => .error "Expecting value") (.ok " ") (some (.vstr "")) =
      .ok ⟨.vstr "", some (.vstr ""), true⟩ :=
  ⟨rfl, rfl⟩

/-- C9 (amended): the API key is write-once-read-many provided the stored
key is truthy (in particular any non-empty string): if the first call
(empty cache) succeeds with a truthy key, then the second call returns the
same key from the cache without performing another secret fetch. -/
theorem api_key_write_once (jsonLoads : JsonLoads) (fetch_secret : Except String String)
    (r : KeyCallResult)
    (hfirst : get_openai_api_key jsonLoads fetch_secret none = .ok r)
    (hkey : pyTruthy r.key = true) :
    get_openai_api_key jsonLoads fetch_secret r.cache = .ok ⟨r.key, r.cache, false⟩ := by
  have hcache : r.cache = some r.key := by
    cases hf : fetch_secret with
    | error e =>
      simp [get_openai_api_key, hf] at hfirst
    | ok secret_str =>
      cases hj : jsonLoads secret_str with
      | error e =>
        simp only [get_openai_api_key, hf, hj] at hfirst
        simp at hfirst
        rw [← hfirst]
      | ok data =>
        cases data with
        | vdict entries =>
          simp only [get_openai_api_key, hf, hj] at hfirst
          split at hfirst
          · simp at hfirst
          · split at hfirst
            · simp at hfirst
              rw [← hfirst]
            · split at hfirst
              · simp at hfirst
              · simp at hfirst
                rw [← hfirst]
        | vnull => simp [get_openai_api_key, hf, hj] at hfirst
        | vbool b => simp [get_openai_api_key, hf, hj] at hfirst
        | vint n => simp [get_openai_api_key, hf, hj] at hfirst
        | vstr s => simp [get_openai_api_key, hf, hj] at hfirst
        | vlist items => simp [get_openai_api_key, hf, hj] at hfirst
  rw [hcache]
  simp [get_openai_api_key, hkey]

/-- Witness for C9 (amended): a plain-string secret "sk-123" is fetched
once; the second call is a cache hit with no fetch. -/
theorem api_key_write_once_witness :
    get_openai_api_key (fun _ => .error "Expecting value") (.ok "sk-123") none =
      .ok ⟨.vstr "sk-123", some (.vstr "sk-123"), true⟩ ∧
    pyTruthy (PyVal.vstr "sk-123") = true ∧
    get_openai_api_key (fun _ => .error "Expecting value") (.ok "sk-123")
      (some (.vstr "sk-123")) = .ok ⟨.vstr "sk-123", some (.vstr "sk-123"), false⟩ :=
  ⟨rfl, rfl,
   api_key_write_once (fun _ => .error "Expecting value") (.ok "sk-123")
     ⟨.vstr "sk-123", some (.vstr "sk-123"), true⟩ rfl rfl⟩

/-- C10: whenever one of `assistant_message`, `phone_number_id`, `user_id`
is empty or whitespace-only, `send_whatsapp_message` raises `ValueError`
before any secret fetch or HTTP request: the result is a `ValueError` and
both side-effect counters are zero. -/
theorem whatsapp_validation_before_effects (get_secret_json : GetSecretJson)
    (http_post : HttpPost) (arn : Option String)
    (assistant_message phone_number_id user_id : String)
    (hblank : pyStrip assistant_message = "" ∨ pyStrip phone_number_id = "" ∨
      pyStrip user_id = "") :
    ∃ m, send_whatsapp_message get_secret_json http_post arn
        assistant_message phone_number_id user_id = (.error (.valueError m), ⟨0, 0⟩) := by
  by_cases h1 : pyStrip assistant_message = ""
  · exact ⟨"assistant_message is empty", by simp [send_whatsapp_message, h1]⟩
  by_cases h2 : pyStrip phone_number_id = ""
  · exact ⟨"phone_number_id is empty", by simp [send_whatsapp_message, h1, h2]⟩
  by_cases h3 : pyStrip user_id = ""
  · exact ⟨"user_id is empty", by simp [send_whatsapp_message, h1, h2, h3]⟩
  · rcases hblank with h | h | h <;> contradiction

/-- Witness for C10: a whitespace-only message is rejected with no secret
fetch and no HTTP request. -/
theorem whatsapp_validation_before_effects_witness :
    (pyStrip "  " = "" ∨ pyStrip "123" = "" ∨ pyStrip "456" = "") ∧
    ∃ m, send_whatsapp_message (fun _ => .error "unavailable")
        (fun _ _ _ => .requestException "unavailable") (some "arn:wa/") "  " "123" "456" =
        (.error (.valueError m), ⟨0, 0⟩) :=
  ⟨Or.inl (by decide),
   whatsapp_validation_before_effects (fun _ => .error "unavailable")
     (fun _ _ _ => .requestException "unavailable") (some "arn:wa/") "  " "123" "456"
     (Or.inl (by decide))⟩
